import Mathlib

/-!
Shallow embedding of the SlashVibePR workflow correlation engine
(Go sources: handlers.go, main.go / modals.go, types.go, config.go).

Modelling conventions:
* Go strings are modelled as Lean `String`; where the source measures or
  slices strings in bytes (Slack option labels), the byte sequence is taken
  with `String.toUTF8`, matching Go's byte-oriented `len` and slicing.
* `map[string]interface{}` values decoded from JSON are modelled by the
  `JValue` inductive (null / bool / number / string / array / object), with
  objects as association lists looked up by key.
* The Redis session store (`Set`/`Get`/`Del` on `slashvibeprs:<viewId>` keys)
  is modelled as a total map `String → Option (List PRItem)`; the JSON
  marshal/unmarshal round trip of the stored PR list is elided (it is the
  identity on the data stored by `handlePoppitOutput`).  The one-hour TTL is
  data expiry handled by Redis and is not modelled.
* Fallible external operations (Slack `OpenView`, Redis `RPush`, `Set`,
  `Del`) are parameterised by their outcome (`Option String` for the view id
  returned by a successful open; `Bool` success flags otherwise).
* Each handler returns an explicit record of its observable effects: UI
  calls made, execution requests / notifications successfully enqueued,
  session writes attempted, and the resulting store.
-/

namespace SlashVibePR

/-- JSON-ish dynamic value, modelling Go `interface{}` as produced by
`encoding/json` (nil, bool, float64, string, []interface{},
map[string]interface{}). Objects are association lists. -/
inductive JValue where
  | null : JValue
  | bool : Bool → JValue
  | num : Int → JValue
  | str : String → JValue
  | arr : List JValue → JValue
  | obj : List (String × JValue) → JValue

/-- One pull request as decoded from `gh pr list --json
number,title,author,url,headRefName` (Go struct `PRItem`; the nested
`Author.Login` is flattened to `authorLogin`). -/
structure PRItem where
  number : Int
  title : String
  authorLogin : String
  url : String
  headRefName : String
deriving Repr, DecidableEq, Inhabited

/-- Runtime configuration (Go struct `Config`). Only the fields the handlers
read are carried. -/
structure Config where
  gitHubOrg : String
  slackChannelID : String
deriving Repr, DecidableEq, Inhabited

/-- Incoming Slack slash command payload (Go struct `SlackCommand`). -/
structure SlackCommand where
  command : String
  text : String
  responseURL : String
  triggerID : String
  userID : String
  userName : String
  channelID : String
deriving Repr, DecidableEq, Inhabited

/-- Contents of the PR-chooser modal's `private_metadata`
(Go struct `PRModalPrivateMetadata`). -/
structure PRModalPrivateMetadata where
  repo : String
deriving Repr, DecidableEq, Inhabited

/-- A Slack view submission (Go struct `ViewSubmission`), flattened to the
fields the handlers read.  `privateMetadata` holds the result of
`json.Unmarshal` of the view's `private_metadata` string into
`PRModalPrivateMetadata` (`none` models a parse error). -/
structure ViewSubmission where
  viewID : String
  callbackID : String
  privateMetadata : Option PRModalPrivateMetadata
  stateValues : List (String × List (String × JValue))
  username : String

/-- Metadata attached to the `pr_posted` notification
(the `event_payload` map built by `postPRToSlack`). -/
structure PRPostedPayload where
  pr_number : Int
  repository : String
  pr_url : String
  author : String
  title : String
  posted_by : String
  branch : String
deriving Repr, DecidableEq, Inhabited

/-- Message pushed to the SlackLiner Redis list (Go struct
`SlackLinerMessage`); its metadata map has the fixed shape
`{event_type, event_payload}`, modelled as two fields. -/
structure SlackLinerMessage where
  channel : String
  text : String
  ttl : Int
  event_type : String
  event_payload : PRPostedPayload
deriving Repr, DecidableEq, Inhabited

/-- Execution request pushed to the Poppit Redis list (Go struct
`PoppitCommand`); its metadata map has the fixed shape
`{view_id, repo, username}` at the single call site
(`sendPRListCommand`), modelled as three fields. -/
structure PoppitCommand where
  repo : String
  branch : String
  type : String
  dir : String
  commands : List String
  viewID : String
  metaRepo : String
  username : String
deriving Repr, DecidableEq, Inhabited

/-- Poppit execution result event (Go struct `PoppitOutput`).  `metadata` is
the free-form `map[string]interface{}` (`none` models a nil map). -/
structure PoppitOutput where
  metadata : Option (List (String × JValue))
  type : String
  command : String
  output : String

/-- Constant `poppitPRListType` from handlers.go. -/
def poppitPRListType : String := "slash-vibe-pr-list"

/-- Constant `defaultPRLimit` from handlers.go. -/
def defaultPRLimit : Nat := 50

/-- Constant `prModalCallbackID` from main.go. -/
def prModalCallbackID : String := "select_pr_modal"

/-- Session key construction `prSessionKeyPrefix + viewID`
(the constant "slashvibeprs:" from handlers.go). -/
def sessionKey (viewID : String) : String := "slashvibeprs:" ++ viewID

/-- Session store: Redis keys `slashvibeprs:<viewId>` to stored PR lists. -/
def SessionStore : Type := String → Option (List PRItem)

/-- Redis `Set` on a session key (overwrite, last-writer-wins). -/
def putSession (st : SessionStore) (k : String) (v : List PRItem) : SessionStore :=
  fun q => if q = k then some v else st q

/-- Redis `Get` on a session key; absence is `none`, not an error. -/
def getSession (st : SessionStore) (k : String) : Option (List PRItem) := st k

/-- Redis `Del` on a session key. -/
def delSession (st : SessionStore) (k : String) : SessionStore :=
  fun q => if q = k then none else st q

/-- Character class of the `validRepoName` regular expression
`^[a-zA-Z0-9._-]+$` from handlers.go. -/
def isRepoNameChar (c : Char) : Bool :=
  (('a' ≤ c && c ≤ 'z') || ('A' ≤ c && c ≤ 'Z') || ('0' ≤ c && c ≤ '9')
    || c = '.' || c = '_' || c = '-')

/-- The regular expression `validRepoName = ^[a-zA-Z0-9._-]+$` from
handlers.go: at least one character, all from the class. -/
def validRepoName (s : String) : Bool :=
  !s.isEmpty && s.toList.all isRepoNameChar

/-- Modelled from the spec: the free-text token grammar of §4.1
("letters, digits, `.`, `-`, `_` only", at least one character) — the
spec-side counterpart compared against `validRepoName`. -/
def matchesTokenGrammar (s : String) : Bool :=
  !s.isEmpty && s.toList.all (fun c =>
    c.isAlpha || c.isDigit || c = '.' || c = '-' || c = '_')

/-- Go `strings.TrimSpace`: drop leading and trailing whitespace (modelled
over `Char.isWhitespace`). -/
def trimSpace (s : String) : String :=
  (((s.toList.dropWhile Char.isWhitespace).reverse.dropWhile
      Char.isWhitespace).reverse).asString

/-- Selection-dialog option (Go `slack.OptionBlockObject`): the label text as
its byte sequence (Go strings are byte strings; Slack's 75-byte limit and
`text[:72]` slicing are byte-oriented) and the option value. -/
structure PROption where
  text : List UInt8
  value : String
deriving Repr, DecidableEq

/-- Byte sequence of a Go string (UTF-8). -/
def goBytes (s : String) : List UInt8 := s.toUTF8.data.toList

/-- One option of the PR chooser, from the loop in `createPRChooserModal`
(main.go): label `#<number>: <title>`, truncated to its first 72 bytes plus
"..." when longer than 75 bytes; value `fmt.Sprintf("%d", pr.Number)`. -/
def prOption (pr : PRItem) : PROption :=
  let text := goBytes ("#" ++ toString pr.number ++ ": " ++ pr.title)
  let text := if text.length > 75 then text.take 72 ++ goBytes "..." else text
  { text := text, value := toString pr.number }

/-- Option list of the PR chooser modal (`createPRChooserModal`, main.go). -/
def prChooserOptions (prs : List PRItem) : List PROption := prs.map prOption

/-- Modal view payloads, abstracted to what distinguishes them (§1 of the
spec treats dialog-form construction as opaque payload assembly):
the repo chooser, the loading modal, the PR chooser with its options and
private metadata, and the error modal with its message. -/
inductive Modal where
  | repoChooser : Modal
  | loading : Modal
  | prChooser : List PROption → String → PRModalPrivateMetadata → Modal
  | error : String → Modal
deriving Repr, DecidableEq

/-- The `gh pr list` command string built by `sendPRListCommand`. -/
def ghPRListCommand (repo : String) : String :=
  "gh pr list --repo " ++ repo ++
    " --json number,title,author,url,headRefName --limit " ++
    toString defaultPRLimit

/-- The `PoppitCommand` value built and enqueued by `sendPRListCommand`
(handlers.go): repo, empty branch, the pr-list type, dir `/tmp`, the single
`gh pr list` command, and metadata `{view_id, repo, username}`. -/
def sendPRListCommand (repo viewID username : String) : PoppitCommand :=
  { repo := repo
    branch := ""
    type := poppitPRListType
    dir := "/tmp"
    commands := [ghPRListCommand repo]
    viewID := viewID
    metaRepo := repo
    username := username }

/-- Observable effects of `handleSlashCommand`: whether the invalid-repo
warning was logged (the Warn-and-drop branch), the `OpenView` calls made
(activation token, modal), and the execution requests successfully
enqueued. -/
structure SlashOutcome where
  warnedInvalidRepo : Bool
  opens : List (String × Modal)
  requests : List PoppitCommand
deriving Repr, DecidableEq

/-- Go `handleSlashCommand` (handlers.go).  `openViewResult` is the outcome
of the Slack `OpenView` call (`some viewId` on success, `none` on error);
`pushOk` is the outcome of the Redis `RPush` inside `sendPRListCommand`.
Commands other than `/pr` are ignored; a non-empty trimmed text is validated
against `validRepoName` and on failure the event is logged and dropped; an
empty text opens the repo chooser. -/
def handleSlashCommand (config : Config) (cmd : SlackCommand)
    (openViewResult : Option String) (pushOk : Bool) : SlashOutcome :=
  if cmd.command ≠ "/pr" then
    { warnedInvalidRepo := false, opens := [], requests := [] }
  else
    let repoArg := trimSpace cmd.text
    if repoArg ≠ "" then
      if ¬ validRepoName repoArg then
        { warnedInvalidRepo := true, opens := [], requests := [] }
      else
        let repo := config.gitHubOrg ++ "/" ++ repoArg
        match openViewResult with
        | none =>
          { warnedInvalidRepo := false
            opens := [(cmd.triggerID, Modal.loading)]
            requests := [] }
        | some viewID =>
          { warnedInvalidRepo := false
            opens := [(cmd.triggerID, Modal.loading)]
            requests :=
              if pushOk then [sendPRListCommand repo viewID cmd.userName]
              else [] }
    else
      { warnedInvalidRepo := false
        opens := [(cmd.triggerID, Modal.repoChooser)]
        requests := [] }

/-- Plain-text-input branch of `extractTextValue` (handlers.go): the string
under the `value` key of the action object, "" when absent or not a
string. -/
def plainTextValue (actionMap : List (String × JValue)) : String :=
  match actionMap.lookup "value" with
  | some (JValue.str v) => v
  | _ => ""

/-- Go `extractTextValue` (handlers.go): fetch `values[blockID][actionID]`,
require it to be an object, prefer `selected_option.value` when it is a
string, fall back to a plain string `value`, and return "" in every other
case. -/
def extractTextValue (values : List (String × List (String × JValue)))
    (blockID actionID : String) : String :=
  match values.lookup blockID with
  | none => ""
  | some block =>
    match block.lookup actionID with
    | none => ""
    | some action =>
      match action with
      | JValue.obj actionMap =>
        match actionMap.lookup "selected_option" with
        | some (JValue.obj so) =>
          match so.lookup "value" with
          | some (JValue.str v) => v
          | _ => plainTextValue actionMap
        | _ => plainTextValue actionMap
      | _ => ""

/-- The `SlackLinerMessage` built by `postPRToSlack` (handlers.go). -/
def postPRToSlack (config : Config) (pr : PRItem) (repo postedBy : String) :
    SlackLinerMessage :=
  { channel := config.slackChannelID
    text := "📋 *Pull Request shared by @" ++ postedBy ++ "*\n\n" ++
      "*Repository:* " ++ repo ++ "\n" ++
      "*PR #" ++ toString pr.number ++ ":* " ++ pr.title ++ "\n" ++
      "*Author:* " ++ pr.authorLogin ++ "\n" ++
      "*Link:* <" ++ pr.url ++ "|View PR>"
    ttl := 86400
    event_type := "pr_posted"
    event_payload :=
      { pr_number := pr.number
        repository := repo
        pr_url := pr.url
        author := pr.authorLogin
        title := pr.title
        posted_by := postedBy
        branch := pr.headRefName } }

/-- Observable effects of `handlePRSelection`: the notifications
successfully enqueued to the SlackLiner list, and the resulting session
store. -/
structure SelectionOutcome where
  notifications : List SlackLinerMessage
  store : SessionStore

/-- Go `handlePRSelection` (handlers.go).  Extracts the submitted PR number
from the view state; empty → drop.  Reads the session under
`slashvibeprs:<viewId>` (absence or store failure → drop), parses private
metadata (failure → drop), finds the first stored PR whose rendered number
equals the submitted value (none → drop), then pushes the formatted message
(`pushOk` is the RPush outcome; failure aborts before the delete) and
best-effort deletes the session key (`delOk` is the Del outcome; failure is
only logged). -/
def handlePRSelection (config : Config) (st : SessionStore)
    (sub : ViewSubmission) (pushOk delOk : Bool) : SelectionOutcome :=
  let prNumber := extractTextValue sub.stateValues "pr_block" "pr_select"
  if prNumber = "" then { notifications := [], store := st }
  else
    let key := sessionKey sub.viewID
    match getSession st key with
    | none => { notifications := [], store := st }
    | some prs =>
      match sub.privateMetadata with
      | none => { notifications := [], store := st }
      | some meta =>
        match prs.find? (fun pr => toString pr.number == prNumber) with
        | none => { notifications := [], store := st }
        | some selectedPR =>
          if pushOk then
            { notifications := [postPRToSlack config selectedPR meta.repo sub.username]
              store := if delOk then delSession st key else st }
          else { notifications := [], store := st }

/-- Go `handleViewSubmission` (handlers.go): route by callback id. -/
def handleViewSubmission (config : Config) (st : SessionStore)
    (sub : ViewSubmission) (pushOk delOk : Bool) : SelectionOutcome :=
  if sub.callbackID = prModalCallbackID then
    handlePRSelection config st sub pushOk delOk
  else { notifications := [], store := st }

/-- String value of an optional `JValue`, modelling the Go type assertion
`metadata["k"].(string)` whose failure yields "". -/
def jStringOf : Option JValue → String
  | some (JValue.str s) => s
  | _ => ""

/-- Observable effects of `handlePoppitOutput`: `UpdateView` calls made
(view id, replacement modal; the concurrency hash is always the empty
string), session writes attempted (key, PR list), and the resulting
store. -/
structure PoppitOutcome where
  uiUpdates : List (String × Modal)
  sessionWrites : List (String × List PRItem)
  store : SessionStore

/-- Error message used by `handlePoppitOutput` on a JSON parse failure. -/
def parseFailureMessage : String :=
  "Failed to parse the pull request list. Please try again."

/-- Error message used by `handlePoppitOutput` on an empty PR list. -/
def noOpenPRsMessage (repo : String) : String :=
  "No open pull requests found for `" ++ repo ++ "`."

/-- Go `handlePoppitOutput` (handlers.go).  Events whose type is not
`slash-vibe-pr-list`, with nil metadata, or missing `view_id`/`repo` are
dropped.  `parsed` is the outcome of `json.Unmarshal` on the trimmed output
(`none` models a parse error): parse failure and the empty list each replace
the modal with the corresponding error message and write nothing; otherwise
the PR list is stored under `slashvibeprs:<viewId>` (`setOk` is the Redis
Set outcome; failure aborts before the UI update) and the loading modal is
replaced by the PR chooser. -/
def handlePoppitOutput (st : SessionStore) (output : PoppitOutput)
    (parsed : Option (List PRItem)) (setOk : Bool) : PoppitOutcome :=
  if output.type ≠ poppitPRListType then
    { uiUpdates := [], sessionWrites := [], store := st }
  else
    match output.metadata with
    | none => { uiUpdates := [], sessionWrites := [], store := st }
    | some metadata =>
      let viewID := jStringOf (metadata.lookup "view_id")
      let repo := jStringOf (metadata.lookup "repo")
      if viewID = "" ∨ repo = "" then
        { uiUpdates := [], sessionWrites := [], store := st }
      else
        match parsed with
        | none =>
          { uiUpdates := [(viewID, Modal.error parseFailureMessage)]
            sessionWrites := []
            store := st }
        | some prs =>
          if prs.length = 0 then
            { uiUpdates := [(viewID, Modal.error (noOpenPRsMessage repo))]
              sessionWrites := []
              store := st }
          else
            let key := sessionKey viewID
            if setOk then
              { uiUpdates :=
                  [(viewID, Modal.prChooser (prChooserOptions prs) repo
                      { repo := repo })]
                sessionWrites := [(key, prs)]
                store := putSession st key prs }
            else
              { uiUpdates := []
                sessionWrites := [(key, prs)]
                store := st }

/-! ## Concrete fixtures used by witnesses and counterexamples -/

/-- Configuration with organization "acme" used in concrete scenarios. -/
def cfgAcme : Config := { gitHubOrg := "acme", slackChannelID := "C123" }

/-- Candidate item: PR #7 of the scenario in §8 of the spec. -/
def prSeven : PRItem :=
  { number := 7, title := "Fix billing rounding", authorLogin := "alice",
    url := "https://example.com/pr/7", headRefName := "fix-rounding" }

/-- Session store holding PR #7 under view id "V1" and nothing else. -/
def storeV1 : SessionStore :=
  fun q => if q = sessionKey "V1" then some [prSeven] else none

/-- Session store holding nothing at all. -/
def storeEmpty : SessionStore := fun _ => none

/-- Selection submission choosing value "7" in the PR chooser of view "V1". -/
def subSeven : ViewSubmission :=
  { viewID := "V1", callbackID := prModalCallbackID,
    privateMetadata := some { repo := "acme/billing-service" },
    stateValues :=
      [("pr_block",
        [("pr_select",
          JValue.obj [("selected_option", JValue.obj [("value", JValue.str "7")])])])],
    username := "bob" }

/-- Poppit pr-list output event for view "V1" and repo
"acme/billing-service". -/
def outV1 : PoppitOutput :=
  { metadata := some
      [("view_id", JValue.str "V1"),
       ("repo", JValue.str "acme/billing-service"),
       ("username", JValue.str "bob")],
    type := poppitPRListType,
    command := ghPRListCommand "acme/billing-service",
    output := "[]" }

/-- Slash command whose trimmed text "my/repo" contains a slash. -/
def cmdSlashed : SlackCommand :=
  { command := "/pr", text := " my/repo ", responseURL := "", triggerID := "T1",
    userID := "U1", userName := "bob", channelID := "C1" }

/-! ## Helper lemmas -/

/-- Accumulator-monotonicity of `Nat.toDigitsCore`: the output is at least as
long as the accumulator. -/
theorem toDigitsCore_length_ge (b : Nat) :
    ∀ (f n : Nat) (ds : List Char), ds.length ≤ (Nat.toDigitsCore b f n ds).length := by
  intro f
  induction f with
  | zero => intro n ds; simp [Nat.toDigitsCore]
  | succ f ih =>
    intro n ds
    simp only [Nat.toDigitsCore]
    split
    · simp
    · exact le_trans (by simp) (ih (n / b) (Nat.digitChar (n % b) :: ds))

/-- The decimal rendering of a natural number is never empty. -/
theorem nat_repr_length_pos (n : Nat) : 0 < (Nat.repr n).length := by
  show 0 < (Nat.toDigits 10 n).length
  have h3 : 1 ≤ (Nat.toDigitsCore 10 (n + 1) n []).length := by
    simp only [Nat.toDigitsCore]
    split
    · simp
    · exact le_trans (by simp)
        (toDigitsCore_length_ge 10 n (n / 10) [Nat.digitChar (n % 10)])
  exact h3

/-- `fmt.Sprintf("%d", n)` (modelled by `toString` on `Int`) is never the
empty string. -/
theorem int_toString_ne_empty (i : Int) : toString i ≠ "" := by
  intro h
  have h2 : (toString i).length = 0 := by rw [h]; rfl
  cases i with
  | ofNat m =>
    have hpos : 0 < (Nat.repr m).length := nat_repr_length_pos m
    have hh : (toString (Int.ofNat m)).length = (Nat.repr m).length := rfl
    omega
  | negSucc m =>
    have hh : (toString (Int.negSucc m)).length = ("-" ++ Nat.repr (m + 1)).length := rfl
    rw [String.length_append] at hh
    have hpos : 0 < (Nat.repr (m + 1)).length := nat_repr_length_pos (m + 1)
    have h1 : ("-" : String).length = 1 := rfl
    omega

/-- The regex character class `[a-zA-Z0-9._-]` coincides with the spec's
token grammar "letters, digits, `.`, `-`, `_`". -/
theorem isRepoNameChar_eq_tokenChar (c : Char) : isRepoNameChar c
    = (c.isAlpha || c.isDigit || c = '.' || c = '-' || c = '_') := by
  apply Bool.eq_iff_iff.mpr
  simp only [isRepoNameChar, Char.isAlpha, Char.isUpper, Char.isLower, Char.isDigit,
    Bool.or_eq_true, Bool.and_eq_true, decide_eq_true_eq, Char.le_def, ge_iff_le,
    Char.ext_iff]
  have hv : ∀ a b : UInt32, (a ≤ b) = (a.toNat ≤ b.toNat) := fun a b => rfl
  have hq : ∀ a b : UInt32, (a = b) = (a.toNat = b.toNat) := fun a b =>
    propext UInt32.ext_iff
  have e1 : 'a'.val.toNat = 97 := rfl
  have e2 : 'z'.val.toNat = 122 := rfl
  have e3 : 'A'.val.toNat = 65 := rfl
  have e4 : 'Z'.val.toNat = 90 := rfl
  have e5 : '0'.val.toNat = 48 := rfl
  have e6 : '9'.val.toNat = 57 := rfl
  have e7 : '.'.val.toNat = 46 := rfl
  have e8 : '_'.val.toNat = 95 := rfl
  have e9 : '-'.val.toNat = 45 := rfl
  have f1 : (97 : UInt32).toNat = 97 := rfl
  have f2 : (122 : UInt32).toNat = 122 := rfl
  have f3 : (65 : UInt32).toNat = 65 := rfl
  have f4 : (90 : UInt32).toNat = 90 := rfl
  have f5 : (48 : UInt32).toNat = 48 := rfl
  have f6 : (57 : UInt32).toNat = 57 := rfl
  constructor <;> intro h <;> revert h <;>
    simp only [hv, hq, e1, e2, e3, e4, e5, e6, e7, e8, e9, f1, f2, f3, f4, f5, f6] <;>
    intro h <;> omega

/-- No whitespace character is in the repo-name character class. -/
theorem isRepoNameChar_whitespace_false (c : Char) (h : c.isWhitespace) :
    isRepoNameChar c = false := by
  simp [Char.isWhitespace] at h
  rcases h with ((rfl | rfl) | rfl) | rfl <;> decide

/-! ## Claims -/

/-- C6: for every session list `v`, every store and every view key,
storing with `put`, then deleting, then reading yields absence:
`get(delete(put(s))) = absent`. -/
theorem C6_get_delete_put (st : SessionStore) (k : String) (v : List PRItem) :
    getSession (delSession (putSession st k v) k) k = none := by
  simp [getSession, delSession, putSession]

/-- C7: `delete` on an absent session key leaves the store unchanged (it
never produces an error: it is a total no-op), and `delete` is idempotent —
deleting twice equals deleting once. -/
theorem C7_delete_absent_noop :
    (∀ (st : SessionStore) (k : String), getSession st k = none → delSession st k = st)
    ∧ (∀ (st : SessionStore) (k : String),
        delSession (delSession st k) k = delSession st k) := by
  constructor
  · intro st k h
    funext q
    by_cases hq : q = k
    · subst hq; simp [delSession, getSession] at h ⊢; exact h.symm
    · simp [delSession, hq]
  · intro st k
    funext q
    by_cases hq : q = k <;> simp [delSession, hq]

/-- Witness for C7 at the empty store and view id "V1". -/
theorem C7_delete_absent_noop_witness :
    getSession storeEmpty "V1" = none
    ∧ delSession storeEmpty "V1" = storeEmpty
    ∧ delSession (delSession storeV1 "V1") "V1" = delSession storeV1 "V1" :=
  ⟨rfl, C7_delete_absent_noop.1 storeEmpty "V1" rfl,
    C7_delete_absent_noop.2 storeV1 "V1"⟩

/-- C10: every selection-dialog option has value the decimal rendering of
the item's number, its label is the byte string `#<number>: <title>` when
that is at most 75 bytes and otherwise its first 72 bytes followed by
"...", and hence every label is at most 75 bytes long.  (The option list of
`createPRChooserModal` is `prChooserOptions prs = prs.map prOption`, so
this covers each option of every candidate list.) -/
theorem C10_option_label (pr : PRItem) :
    (prOption pr).value = toString pr.number
    ∧ (prOption pr).text =
        (if (goBytes ("#" ++ toString pr.number ++ ": " ++ pr.title)).length > 75 then
          (goBytes ("#" ++ toString pr.number ++ ": " ++ pr.title)).take 72 ++ goBytes "..."
        else goBytes ("#" ++ toString pr.number ++ ": " ++ pr.title))
    ∧ (prOption pr).text.length ≤ 75 := by
  refine ⟨rfl, rfl, ?_⟩
  by_cases h : (goBytes ("#" ++ toString pr.number ++ ": " ++ pr.title)).length > 75
  · simp only [prOption, h, if_true]
    rw [List.length_append, List.length_take]
    have hdots : (goBytes "...").length = 3 := by decide
    omega
  · simp only [prOption, h, if_false]
    omega

/-- C3 counterexample: on a pr-list result for view "V1" and collection
"acme/billing-service" whose output parses to zero items, the single UI
replacement carries the message "No open pull requests found for
`acme/billing-service`." — which is not the claim's literal message
"no open pull requests found for `acme/billing-service`" (the code
capitalises the sentence and ends it with a period). -/
theorem C3_counterexample :
    (handlePoppitOutput storeEmpty outV1 (some []) true).uiUpdates
      = [("V1", Modal.error "No open pull requests found for `acme/billing-service`.")]
    ∧ "No open pull requests found for `acme/billing-service`."
      ≠ "no open pull requests found for `acme/billing-service`" :=
  ⟨rfl, by decide⟩

/-- C3 (amended): for every pr-list ExecutionResult whose metadata carries a
view id and collection, if its output parses to zero items the handler
performs exactly one UI replacement for that view id with the message
"No open pull requests found for `<collection>`." and performs zero session
writes, leaving the store unchanged. -/
theorem C3_empty_list (st : SessionStore) (output : PoppitOutput)
    (metadata : List (String × JValue)) (setOk : Bool)
    (htype : output.type = poppitPRListType)
    (hmeta : output.metadata = some metadata)
    (hview : jStringOf (metadata.lookup "view_id") ≠ "")
    (hrepo : jStringOf (metadata.lookup "repo") ≠ "") :
    handlePoppitOutput st output (some []) setOk
      = { uiUpdates := [(jStringOf (metadata.lookup "view_id"),
            Modal.error (noOpenPRsMessage (jStringOf (metadata.lookup "repo"))))]
          sessionWrites := []
          store := st } := by
  simp [handlePoppitOutput, htype, hmeta, hview, hrepo]

/-- Witness for C3 at the concrete event `outV1`. -/
theorem C3_empty_list_witness :
    outV1.type = poppitPRListType
    ∧ outV1.metadata = some
        [("view_id", JValue.str "V1"),
         ("repo", JValue.str "acme/billing-service"),
         ("username", JValue.str "bob")]
    ∧ handlePoppitOutput storeEmpty outV1 (some []) true
      = { uiUpdates := [("V1",
            Modal.error (noOpenPRsMessage "acme/billing-service"))]
          sessionWrites := []
          store := storeEmpty } :=
  ⟨rfl, rfl,
    C3_empty_list storeEmpty outV1
      [("view_id", JValue.str "V1"),
       ("repo", JValue.str "acme/billing-service"),
       ("username", JValue.str "bob")]
      true rfl rfl (by decide) (by decide)⟩

/-- C4: for every pr-list ExecutionResult whose metadata carries a view id
and collection, if its output fails structural parse the handler performs
exactly one UI replacement for that view id with the parse-failure message,
performs zero session writes, and the parse-failure message is distinct
from the empty-list message for every collection. -/
theorem C4_parse_failure (st : SessionStore) (output : PoppitOutput)
    (metadata : List (String × JValue)) (setOk : Bool)
    (htype : output.type = poppitPRListType)
    (hmeta : output.metadata = some metadata)
    (hview : jStringOf (metadata.lookup "view_id") ≠ "")
    (hrepo : jStringOf (metadata.lookup "repo") ≠ "") :
    handlePoppitOutput st output none setOk
      = { uiUpdates := [(jStringOf (metadata.lookup "view_id"),
            Modal.error parseFailureMessage)]
          sessionWrites := []
          store := st }
    ∧ ∀ repo, parseFailureMessage ≠ noOpenPRsMessage repo := by
  constructor
  · simp [handlePoppitOutput, htype, hmeta, hview, hrepo]
  · intro repo h
    have hh := congrArg (fun s => s.data.head?) h
    simp [parseFailureMessage, noOpenPRsMessage, String.data_append] at hh

/-- Witness for C4 at the concrete event `outV1`. -/
theorem C4_parse_failure_witness :
    outV1.type = poppitPRListType
    ∧ outV1.metadata = some
        [("view_id", JValue.str "V1"),
         ("repo", JValue.str "acme/billing-service"),
         ("username", JValue.str "bob")]
    ∧ (handlePoppitOutput storeEmpty outV1 none true
        = { uiUpdates := [("V1", Modal.error parseFailureMessage)]
            sessionWrites := []
            store := storeEmpty }
      ∧ ∀ repo, parseFailureMessage ≠ noOpenPRsMessage repo) :=
  ⟨rfl, rfl,
    C4_parse_failure storeEmpty outV1
      [("view_id", JValue.str "V1"),
       ("repo", JValue.str "acme/billing-service"),
       ("username", JValue.str "bob")]
      true rfl rfl (by decide) (by decide)⟩

/-- C8: a `/pr` invocation with text "billing-service" and activation token
"T1" under configured organization "acme", with the dialog open returning a
fresh view id and the enqueue succeeding, makes exactly one dialog-open
call using token "T1" and enqueues exactly one ExecutionRequest whose
collection is "acme/billing-service" and whose metadata carries the new
view id and the invoking user. -/
theorem C8_direct_argument
    (responseURL userID userName channelID viewID chan : String) :
    handleSlashCommand { gitHubOrg := "acme", slackChannelID := chan }
      { command := "/pr", text := "billing-service", responseURL := responseURL,
        triggerID := "T1", userID := userID, userName := userName,
        channelID := channelID }
      (some viewID) true
    = { warnedInvalidRepo := false
        opens := [("T1", Modal.loading)]
        requests := [sendPRListCommand "acme/billing-service" viewID userName] }
    ∧ (sendPRListCommand "acme/billing-service" viewID userName).repo
        = "acme/billing-service"
    ∧ (sendPRListCommand "acme/billing-service" viewID userName).viewID = viewID
    ∧ (sendPRListCommand "acme/billing-service" viewID userName).username
        = userName := by
  refine ⟨?_, rfl, rfl, rfl⟩
  have h2 : trimSpace "billing-service" = "billing-service" := by decide
  have h3 : validRepoName "billing-service" = true := by decide
  have h4 : ("billing-service" : String) ≠ "" := by decide
  simp [handleSlashCommand, h2, h3, h4]

/-- C1 counterexample: the argument ".." consists solely of token-grammar
characters, so `validRepoName` accepts it and the handler neither logs nor
drops it — one dialog open and one ExecutionRequest (for collection
"acme/..") are produced, contradicting the claim that every argument
containing ".." is rejected. -/
theorem C1_counterexample :
    validRepoName ".." = true
    ∧ handleSlashCommand cfgAcme
        { command := "/pr", text := "..", responseURL := "", triggerID := "T1",
          userID := "U1", userName := "bob", channelID := "C1" }
        (some "V1") true
      = { warnedInvalidRepo := false
          opens := [("T1", Modal.loading)]
          requests := [sendPRListCommand "acme/.." "V1" "bob"] } :=
  ⟨by decide, by decide⟩

/-- C1 (amended): for every slash-command event with a non-empty trimmed
free-text argument, the argument validates exactly when it matches the
token grammar (letters, digits, '.', '-', '_' only); every argument
containing whitespace, '/', or ';' is rejected (an argument containing
".." is made of token characters and is accepted); a rejected argument is
logged (the warn flag) and dropped with no UI call and no ExecutionRequest
emitted. -/
theorem C1_validation (config : Config) (cmd : SlackCommand)
    (openViewResult : Option String) (pushOk : Bool)
    (hcmd : cmd.command = "/pr") (hne : trimSpace cmd.text ≠ "") :
    validRepoName (trimSpace cmd.text) = matchesTokenGrammar (trimSpace cmd.text)
    ∧ ((∃ c ∈ (trimSpace cmd.text).toList, c.isWhitespace ∨ c = '/' ∨ c = ';') →
        validRepoName (trimSpace cmd.text) = false)
    ∧ (validRepoName (trimSpace cmd.text) = false →
        handleSlashCommand config cmd openViewResult pushOk
          = { warnedInvalidRepo := true, opens := [], requests := [] })
    ∧ (validRepoName (trimSpace cmd.text) = true →
        (handleSlashCommand config cmd openViewResult pushOk).warnedInvalidRepo
          = false) := by
  refine ⟨?_, ?_, ?_, ?_⟩
  · have hchar : isRepoNameChar = fun c =>
        (c.isAlpha || c.isDigit || c = '.' || c = '-' || c = '_') :=
      funext isRepoNameChar_eq_tokenChar
    simp only [validRepoName, matchesTokenGrammar, hchar]
  · rintro ⟨c, hc, hcase⟩
    have hfc : isRepoNameChar c = false := by
      rcases hcase with hw | rfl | rfl
      · exact isRepoNameChar_whitespace_false c hw
      · decide
      · decide
    cases hval : validRepoName (trimSpace cmd.text) with
    | false => rfl
    | true =>
      exfalso
      unfold validRepoName at hval
      rw [Bool.and_eq_true] at hval
      have := List.all_eq_true.mp hval.2 c hc
      rw [hfc] at this
      cases this
  · intro hfalse
    simp [handleSlashCommand, hcmd, hne, hfalse]
  · intro htrue
    cases openViewResult with
    | none => simp [handleSlashCommand, hcmd, hne, htrue]
    | some v => simp [handleSlashCommand, hcmd, hne, htrue]

/-- Witness for C1 (amended) at the concrete command `cmdSlashed`, whose
trimmed argument "my/repo" contains '/' and is rejected. -/
theorem C1_validation_witness :
    cmdSlashed.command = "/pr"
    ∧ trimSpace cmdSlashed.text ≠ ""
    ∧ (validRepoName (trimSpace cmdSlashed.text)
        = matchesTokenGrammar (trimSpace cmdSlashed.text)
      ∧ ((∃ c ∈ (trimSpace cmdSlashed.text).toList,
            c.isWhitespace ∨ c = '/' ∨ c = ';') →
          validRepoName (trimSpace cmdSlashed.text) = false)
      ∧ (validRepoName (trimSpace cmdSlashed.text) = false →
          handleSlashCommand cfgAcme cmdSlashed (some "V1") true
            = { warnedInvalidRepo := true, opens := [], requests := [] })
      ∧ (validRepoName (trimSpace cmdSlashed.text) = true →
          (handleSlashCommand cfgAcme cmdSlashed (some "V1") true).warnedInvalidRepo
            = false)) :=
  ⟨rfl, by decide, C1_validation cfgAcme cmdSlashed (some "V1") true rfl (by decide)⟩

/-- C9: `extractTextValue` is total (it is a plain function into `String`):
a missing block, a missing action, a non-object action value, and an action
object whose candidate values are absent, null or non-strings all yield "";
when `selected_option.value` is a string it is returned, taking priority
over any plain `value`. -/
theorem C9_extractTextValue :
    (∀ (values : List (String × List (String × JValue)))
        (blockID actionID : String),
        values.lookup blockID = none →
        extractTextValue values blockID actionID = "")
    ∧ (∀ (values : List (String × List (String × JValue)))
        (blockID actionID : String) (block : List (String × JValue)),
        values.lookup blockID = some block →
        block.lookup actionID = none →
        extractTextValue values blockID actionID = "")
    ∧ (∀ (values : List (String × List (String × JValue)))
        (blockID actionID : String) (block : List (String × JValue))
        (action : JValue),
        values.lookup blockID = some block →
        block.lookup actionID = some action →
        (∀ m, action ≠ JValue.obj m) →
        extractTextValue values blockID actionID = "")
    ∧ (∀ (values : List (String × List (String × JValue)))
        (blockID actionID : String) (block : List (String × JValue))
        (m : List (String × JValue)),
        values.lookup blockID = some block →
        block.lookup actionID = some (JValue.obj m) →
        (∀ so v, m.lookup "selected_option" = some (JValue.obj so) →
          so.lookup "value" ≠ some (JValue.str v)) →
        (∀ v, m.lookup "value" ≠ some (JValue.str v)) →
        extractTextValue values blockID actionID = "")
    ∧ (∀ (values : List (String × List (String × JValue)))
        (blockID actionID : String) (block : List (String × JValue))
        (m so : List (String × JValue)) (v : String),
        values.lookup blockID = some block →
        block.lookup actionID = some (JValue.obj m) →
        m.lookup "selected_option" = some (JValue.obj so) →
        so.lookup "value" = some (JValue.str v) →
        extractTextValue values blockID actionID = v) := by
  refine ⟨?_, ?_, ?_, ?_, ?_⟩
  · intro values blockID actionID h1
    simp [extractTextValue, h1]
  · intro values blockID actionID block h1 h2
    simp [extractTextValue, h1, h2]
  · intro values blockID actionID block action h1 h2 h3
    cases action with
    | obj m => exact absurd rfl (h3 m)
    | null => simp only [extractTextValue, h1, h2]
    | bool b => simp only [extractTextValue, h1, h2]
    | num n => simp only [extractTextValue, h1, h2]
    | str s => simp only [extractTextValue, h1, h2]
    | arr l => simp only [extractTextValue, h1, h2]
  · intro values blockID actionID block m h1 h2 hsel hval
    have hplain : plainTextValue m = "" := by
      unfold plainTextValue
      cases hv : m.lookup "value" with
      | none => rfl
      | some w =>
        cases w with
        | str s => exact absurd hv (hval s)
        | null => rfl
        | bool b => rfl
        | num n => rfl
        | arr l => rfl
        | obj o => rfl
    simp only [extractTextValue, h1, h2]
    cases hso : m.lookup "selected_option" with
    | none => simp [hso, hplain]
    | some w =>
      cases w with
      | obj so =>
        simp only [hso]
        cases hv2 : so.lookup "value" with
        | none => simp [hv2, hplain]
        | some u =>
          cases u with
          | str s => exact absurd hv2 (hsel so s hso)
          | null => simp [hv2, hplain]
          | bool b => simp [hv2, hplain]
          | num n => simp [hv2, hplain]
          | arr l => simp [hv2, hplain]
          | obj o => simp [hv2, hplain]
      | null => simp [hso, hplain]
      | bool b => simp [hso, hplain]
      | num n => simp [hso, hplain]
      | str s => simp [hso, hplain]
      | arr l => simp [hso, hplain]
  · intro values blockID actionID block m so v h1 h2 h3 h4
    simp [extractTextValue, h1, h2, h3, h4]

/-- Witness for C9: the empty state yields "", and a `selected_option.value`
string takes priority over a coexisting plain `value`. -/
theorem C9_extractTextValue_witness :
    ([] : List (String × List (String × JValue))).lookup "pr_block" = none
    ∧ extractTextValue [] "pr_block" "pr_select" = ""
    ∧ extractTextValue
        [("pr_block",
          [("pr_select",
            JValue.obj
              [("selected_option", JValue.obj [("value", JValue.str "7")]),
               ("value", JValue.str "9")])])]
        "pr_block" "pr_select" = "7" :=
  ⟨rfl,
   C9_extractTextValue.1 [] "pr_block" "pr_select" rfl,
   C9_extractTextValue.2.2.2.2
     [("pr_block",
       [("pr_select",
         JValue.obj
           [("selected_option", JValue.obj [("value", JValue.str "7")]),
            ("value", JValue.str "9")])])]
     "pr_block" "pr_select"
     [("pr_select",
       JValue.obj
         [("selected_option", JValue.obj [("value", JValue.str "7")]),
          ("value", JValue.str "9")])]
     [("selected_option", JValue.obj [("value", JValue.str "7")]),
      ("value", JValue.str "9")]
     [("value", JValue.str "7")] "7" rfl rfl rfl rfl⟩

/-- C2: for a selection submission against a stored session, if the
submitted key equals the rendered number of some stored CandidateItem then
exactly one OutboundNotification is enqueued and its metadata branch and
pr_number equal that item's branch and number; if the key matches no stored
item, zero notifications are enqueued. -/
theorem C2_selection (config : Config) (st : SessionStore) (sub : ViewSubmission)
    (prs : List PRItem) (meta : PRModalPrivateMetadata) (delOk : Bool)
    (hsess : getSession st (sessionKey sub.viewID) = some prs)
    (hmeta : sub.privateMetadata = some meta) :
    ((∃ pr ∈ prs, toString pr.number
        = extractTextValue sub.stateValues "pr_block" "pr_select") →
      ∃ pr ∈ prs,
        toString pr.number = extractTextValue sub.stateValues "pr_block" "pr_select"
        ∧ (handlePRSelection config st sub true delOk).notifications
            = [postPRToSlack config pr meta.repo sub.username]
        ∧ (postPRToSlack config pr meta.repo sub.username).event_payload.branch
            = pr.headRefName
        ∧ (postPRToSlack config pr meta.repo sub.username).event_payload.pr_number
            = pr.number)
    ∧ ((∀ pr ∈ prs, toString pr.number
          ≠ extractTextValue sub.stateValues "pr_block" "pr_select") →
        (handlePRSelection config st sub true delOk).notifications = []) := by
  constructor
  · rintro ⟨pr0, hpr0, hnum⟩
    have hkne : extractTextValue sub.stateValues "pr_block" "pr_select" ≠ "" := by
      rw [← hnum]; exact int_toString_ne_empty pr0.number
    have hfind : (prs.find? (fun pr => toString pr.number
        == extractTextValue sub.stateValues "pr_block" "pr_select")).isSome := by
      rw [List.find?_isSome]
      exact ⟨pr0, hpr0, by simp [hnum]⟩
    obtain ⟨prF, hF⟩ := Option.isSome_iff_exists.mp hfind
    have hmem : prF ∈ prs := List.mem_of_find?_eq_some hF
    have hpred : toString prF.number
        = extractTextValue sub.stateValues "pr_block" "pr_select" := by
      have := List.find?_some hF
      simpa using this
    refine ⟨prF, hmem, hpred, ?_, rfl, rfl⟩
    simp [handlePRSelection, hkne, hsess, hmeta, hF]
  · intro hnone
    by_cases hk0 : extractTextValue sub.stateValues "pr_block" "pr_select" = ""
    · simp [handlePRSelection, hk0]
    · have hfind : prs.find? (fun pr => toString pr.number
          == extractTextValue sub.stateValues "pr_block" "pr_select") = none := by
        rw [List.find?_eq_none]
        intro pr hpr
        simp [hnone pr hpr]
      simp [handlePRSelection, hk0, hsess, hmeta, hfind]

/-- Witness for C2 at the concrete scenario: store `storeV1` (PR #7 under
view "V1"), submission `subSeven` selecting "7". -/
theorem C2_selection_witness :
    getSession storeV1 (sessionKey subSeven.viewID) = some [prSeven]
    ∧ subSeven.privateMetadata = some { repo := "acme/billing-service" }
    ∧ (∃ pr ∈ [prSeven], toString pr.number
        = extractTextValue subSeven.stateValues "pr_block" "pr_select")
    ∧ ∃ pr ∈ [prSeven],
        toString pr.number = extractTextValue subSeven.stateValues "pr_block" "pr_select"
        ∧ (handlePRSelection cfgAcme storeV1 subSeven true true).notifications
            = [postPRToSlack cfgAcme pr "acme/billing-service" "bob"]
        ∧ (postPRToSlack cfgAcme pr "acme/billing-service" "bob").event_payload.branch
            = pr.headRefName
        ∧ (postPRToSlack cfgAcme pr "acme/billing-service" "bob").event_payload.pr_number
            = pr.number := by
  have hex : ∃ pr ∈ [prSeven], toString pr.number
      = extractTextValue subSeven.stateValues "pr_block" "pr_select" :=
    ⟨prSeven, by simp, by decide⟩
  exact ⟨rfl, rfl, hex,
    (C2_selection cfgAcme storeV1 subSeven [prSeven]
      { repo := "acme/billing-service" } true rfl rfl).1 hex⟩

/-- C5: for a selection submission whose key matches a stored CandidateItem,
when the enqueue and the delete both succeed the handler emits exactly one
OutboundNotification and the session for that view id is absent afterwards;
when enqueueing fails the handler aborts that event only: no notification
and an unchanged store. -/
theorem C5_terminal (config : Config) (st : SessionStore) (sub : ViewSubmission)
    (prs : List PRItem) (meta : PRModalPrivateMetadata)
    (hsess : getSession st (sessionKey sub.viewID) = some prs)
    (hmeta : sub.privateMetadata = some meta)
    (hmatch : ∃ pr ∈ prs, toString pr.number
        = extractTextValue sub.stateValues "pr_block" "pr_select") :
    ((handlePRSelection config st sub true true).notifications.length = 1
      ∧ getSession (handlePRSelection config st sub true true).store
          (sessionKey sub.viewID) = none)
    ∧ (∀ (st2 : SessionStore) (sub2 : ViewSubmission) (delOk : Bool),
        handlePRSelection config st2 sub2 false delOk
          = { notifications := [], store := st2 }) := by
  constructor
  · obtain ⟨pr0, hpr0, hnum⟩ := hmatch
    have hkne : extractTextValue sub.stateValues "pr_block" "pr_select" ≠ "" := by
      rw [← hnum]; exact int_toString_ne_empty pr0.number
    have hfind : (prs.find? (fun pr => toString pr.number
        == extractTextValue sub.stateValues "pr_block" "pr_select")).isSome := by
      rw [List.find?_isSome]
      exact ⟨pr0, hpr0, by simp [hnum]⟩
    obtain ⟨prF, hF⟩ := Option.isSome_iff_exists.mp hfind
    constructor
    · simp [handlePRSelection, hkne, hsess, hmeta, hF]
    · have hred : (handlePRSelection config st sub true true).store
          = delSession st (sessionKey sub.viewID) := by
        simp [handlePRSelection, hkne, hsess, hmeta, hF]
      rw [hred]
      simp [getSession, delSession]
  · intro st2 sub2 delOk
    by_cases h0 : extractTextValue sub2.stateValues "pr_block" "pr_select" = ""
    · simp [handlePRSelection, h0]
    · cases hget : getSession st2 (sessionKey sub2.viewID) with
      | none => simp [handlePRSelection, h0, hget]
      | some prs2 =>
        cases hm : sub2.privateMetadata with
        | none => simp [handlePRSelection, h0, hget, hm]
        | some m2 =>
          cases hf : prs2.find? (fun pr => toString pr.number
              == extractTextValue sub2.stateValues "pr_block" "pr_select") with
          | none => simp [handlePRSelection, h0, hget, hm, hf]
          | some pr2 => simp [handlePRSelection, h0, hget, hm, hf]

/-- Witness for C5 at the concrete scenario: after selecting "7" the
notification list has one element and session V1 is absent; with a failed
enqueue nothing is emitted and the store is unchanged. -/
theorem C5_terminal_witness :
    getSession storeV1 (sessionKey subSeven.viewID) = some [prSeven]
    ∧ subSeven.privateMetadata = some { repo := "acme/billing-service" }
    ∧ (∃ pr ∈ [prSeven], toString pr.number
        = extractTextValue subSeven.stateValues "pr_block" "pr_select")
    ∧ (((handlePRSelection cfgAcme storeV1 subSeven true true).notifications.length = 1
        ∧ getSession (handlePRSelection cfgAcme storeV1 subSeven true true).store
            (sessionKey subSeven.viewID) = none)
      ∧ ∀ (st2 : SessionStore) (sub2 : ViewSubmission) (delOk : Bool),
          handlePRSelection cfgAcme st2 sub2 false delOk
            = { notifications := [], store := st2 }) :=
  ⟨rfl, rfl, ⟨prSeven, by simp, by decide⟩,
    C5_terminal cfgAcme storeV1 subSeven [prSeven]
      { repo := "acme/billing-service" } rfl rfl
      ⟨prSeven, by simp, by decide⟩⟩

end SlashVibePR
